import Mathlib

/-!
Shallow embedding of the external tool provider connection manager of the
simpletooling repository: MCPConnection (src/simpletooling/mcp_client.py)
and MCPManager (src/simpletooling/mcp_manager.py). Transport behaviour
(HTTP responses, stdio reads, process spawn outcomes) is abstracted as
explicit oracle values passed to the embedded functions; control flow
follows the Python source. Timestamps and timeout values are modelled as
integers (seconds).
-/

namespace Simpletooling

/-- A tool descriptor as it appears in the result.tools array of a tools
list response. Only the name member is inspected by the client code. -/
structure MCPTool where
  name : String
  description : String
  deriving DecidableEq, Repr

/-- A parsed JSON-RPC response body, reduced to the members the client
inspects: whether the parsed object is the empty object (falsy in Python),
the optional error member (already reduced to its message, defaulted as in
error.get with default Unknown error), the parsed result.tools array
(defaulted to the empty list as dict.get does) and the verbatim result
member returned from a tool call. -/
structure JsonRpcResp where
  isEmptyObj : Bool
  error : Option String
  resultTools : List MCPTool
  resultPayload : String
  deriving DecidableEq, Repr

/-- Outcome of one HTTP POST performed by httpx: either the request raised
(I/O failure or timeout), or a response arrived with a status code and a
body that may or may not parse as JSON (none when response.json raises). -/
inductive HttpOutcome where
  | exn
  | response (status : Nat) (body : Option JsonRpcResp)
  deriving DecidableEq, Repr

/-- MCPConnection._send_jsonrpc_request (mcp_client.py lines 247 to 302):
every failure path (raised exception, non 200 status, unparsable body)
returns None; a 200 response with a parsable body is returned. -/
def sendJsonrpcRequest : HttpOutcome → Option JsonRpcResp
  | .exn => none
  | .response status body => if status ≠ 200 then none else body

/-- Outcome of one readline on the stdio transport: a timeout, an empty
read (end of stream), or a line whose body may or may not parse as JSON. -/
inductive StdioRead where
  | timeout
  | eof
  | line (body : Option JsonRpcResp)
  deriving DecidableEq, Repr

/-- MCPConnection._send_stdio_message (mcp_client.py lines 207 to 245):
a timeout, an empty read and a JSON decode failure are raised as
exceptions with the messages built there; a parsed line is returned. -/
def sendStdioMessage (method : String) : StdioRead → Except String JsonRpcResp
  | .timeout => .error ("Timeout waiting for " ++ method ++ " response")
  | .eof => .error "Communication error: No response from MCP server"
  | .line none => .error "Invalid JSON response"
  | .line (some b) => .ok b

/-- The kind of handle stored in the session attribute of MCPConnection:
an httpx.AsyncClient or a child process object. -/
inductive SessionHandle where
  | httpClient
  | stdioProcess
  deriving DecidableEq, Repr

/-- MCPConnection state (mcp_client.py lines 13 to 22). The stdio_process
field records whether a child process handle is currently attached. -/
structure MCPConnection where
  tools : List (String × MCPTool)
  session : Option SessionHandle
  stdio_process : Bool
  session_id : Option String
  last_access : Int
  is_connected : Bool
  deriving DecidableEq, Repr

/-- MCPConnection.__init__ with the construction time as argument. -/
def MCPConnection.init (now : Int) : MCPConnection :=
  ⟨[], none, false, none, now, false⟩

/-- Python dict insertion on an association list: replaces the value at an
existing key, otherwise appends at the end. -/
def dictInsert {α : Type} (k : String) (v : α) : List (String × α) → List (String × α)
  | [] => [(k, v)]
  | p :: rest => if p.1 = k then (k, v) :: rest else p :: dictInsert k v rest

/-- Python dict lookup on an association list. -/
def lookupKey {α : Type} (d : List (String × α)) (k : String) : Option α :=
  (d.find? (fun p => p.1 = k)).map (fun p => p.2)

/-- The dict comprehension keying each received tool by its name. -/
def buildToolsDict (ts : List MCPTool) : List (String × MCPTool) :=
  ts.foldl (fun d t => dictInsert t.name t d) []

/-- Behaviour of the provider during one connect attempt. The http case
carries the outcomes of the initialize, initialized notification and tools
list requests; the stdio case carries the spawn outcome and the reads for
the initialize, initialized notification and tools list exchanges. The
otherType case models a configured server whose type member is neither
http nor stdio (no session handle is created); raisesEarly models an
exception thrown before any handshake exchange (for example an empty
servers mapping or a failed client construction). -/
inductive ConnectEnv where
  | http (initO notifO toolsO : HttpOutcome)
  | stdio (spawnOk : Bool) (initR notifR toolsR : StdioRead)
  | otherType
  | raisesEarly (msg : String)
  deriving DecidableEq, Repr

/-- One record per JSON-RPC exchange attempted during a handshake: the
method name and whether the client accepted the response. -/
abbrev ExchangeTrace := List (String × Bool)

/-- MCPConnection._fetch_tools, HTTP branch (mcp_client.py lines 313 to
357): initialize must yield a truthy response without an error member; the
initialized notification outcome is ignored; the tools list response must
be truthy without an error member, and its tools are keyed by name. On a
failed exchange the tool cache is left as it was. -/
def fetchToolsHttp (initO notifO toolsO : HttpOutcome) (prev : List (String × MCPTool)) :
    Bool × List (String × MCPTool) × ExchangeTrace :=
  match sendJsonrpcRequest initO with
  | none => (false, prev, [("initialize", false)])
  | some ir =>
    if ir.isEmptyObj || ir.error.isSome then
      (false, prev, [("initialize", false)])
    else
      let nOk := (sendJsonrpcRequest notifO).isSome
      match sendJsonrpcRequest toolsO with
      | none =>
        (false, prev,
          [("initialize", true), ("notifications/initialized", nOk), ("tools/list", false)])
      | some tr =>
        if tr.isEmptyObj || tr.error.isSome then
          (false, prev,
            [("initialize", true), ("notifications/initialized", nOk), ("tools/list", false)])
        else
          (true, buildToolsDict tr.resultTools,
            [("initialize", true), ("notifications/initialized", nOk), ("tools/list", true)])

/-- MCPConnection._fetch_tools, stdio branch (mcp_client.py lines 359 to
388): an exception from either stdio exchange clears the tool cache and
returns False; an error member in the tools response returns False without
clearing the cache. -/
def fetchToolsStdio (notifR toolsR : StdioRead) (prev : List (String × MCPTool)) :
    Bool × List (String × MCPTool) × ExchangeTrace :=
  match sendStdioMessage "notifications/initialized" notifR with
  | .error _ => (false, [], [("notifications/initialized", false)])
  | .ok _ =>
    match sendStdioMessage "tools/list" toolsR with
    | .error _ => (false, [], [("notifications/initialized", true), ("tools/list", false)])
    | .ok tr =>
      if tr.error.isSome then
        (false, prev, [("notifications/initialized", true), ("tools/list", false)])
      else
        (true, buildToolsDict tr.resultTools,
          [("notifications/initialized", true), ("tools/list", true)])

/-- The initialize exchange of MCPConnection._connect_custom_stdio
(mcp_client.py lines 130 to 172): one line is read with a 10 second bound;
a timeout, an empty read, unparsable JSON and an error member all raise. -/
def stdioInitResult : StdioRead → Except String Unit
  | .timeout => .error "Initialize timeout - MCP server not responding"
  | .eof => .error "No response from MCP server"
  | .line none => .error "Invalid JSON response from MCP server"
  | .line (some b) => if b.error.isSome then .error "Initialize error" else .ok ()

/-- Result of one connect call: the mutated connection object, the raised
exception if any (connect re-raises, mcp_client.py lines 95 to 99), and
the exchange trace of the handshake. -/
structure ConnectRun where
  conn : MCPConnection
  exn : Option String
  trace : ExchangeTrace
  deriving DecidableEq, Repr

/-- MCPConnection.connect (mcp_client.py lines 24 to 99) together with
_connect_custom_stdio: dispatches on the configured transport type,
performs the handshake and sets is_connected to the fetch outcome. A
stdio initialize failure cleans the process up and re-raises; the raised
message is surfaced in the exn component. -/
def connect (c : MCPConnection) (env : ConnectEnv) : ConnectRun :=
  if c.is_connected && c.session.isSome then ⟨c, none, []⟩
  else
    match env with
    | .raisesEarly msg => ⟨c, some msg, []⟩
    | .otherType => ⟨{ c with is_connected := false }, none, []⟩
    | .http i n t =>
      let c1 := { c with session := some SessionHandle.httpClient }
      match fetchToolsHttp i n t c1.tools with
      | (succ, tools, tr) => ⟨{ c1 with is_connected := succ, tools := tools }, none, tr⟩
    | .stdio spawnOk ir nr tlr =>
      if !spawnOk then ⟨c, some "Process spawn failed", []⟩
      else
        let c1 := { c with session := some SessionHandle.stdioProcess, stdio_process := true }
        match stdioInitResult ir with
        | .error msg => ⟨{ c1 with stdio_process := false }, some msg, [("initialize", false)]⟩
        | .ok _ =>
          match fetchToolsStdio nr tlr c1.tools with
          | (succ, tools, tr) =>
            ⟨{ c1 with is_connected := succ, tools := tools }, none, ("initialize", true) :: tr⟩

/-- The spec notion of a fully successful handshake, read off the exchange
trace of a run: the initialize exchange and the tools list exchange were
both performed and their responses accepted. -/
def handshakeSucceeded (tr : ExchangeTrace) : Prop :=
  ("initialize", true) ∈ tr ∧ ("tools/list", true) ∈ tr

/-- A provider configuration, reduced to its canonical serialization (what
json.dumps with sorted keys produces) and the behaviour of the provider it
describes during connect. -/
structure ProviderConfig where
  serialized : String
  env : ConnectEnv
  deriving DecidableEq, Repr

/-- The structured result dict returned by MCPManager.add_server. -/
structure AddServerResult where
  config_hash : String
  tools : List (String × MCPTool)
  status : String
  message : String
  deriving DecidableEq, Repr

/-- MCPManager state (mcp_manager.py lines 13 to 17); the background
cleanup task handle is not modelled. -/
structure ManagerState where
  connections : List (String × MCPConnection)
  tool_schemas : List (String × List (String × MCPTool))
  config_hashes : List (String × String)
  deriving DecidableEq, Repr

/-- A manager with no stored connections. -/
def ManagerState.empty : ManagerState := ⟨[], [], []⟩

/-- The cached result built by MCPManager.add_server (lines 31 to 38). -/
def cachedResult (h : String) (st : ManagerState) : AddServerResult :=
  let ts := (lookupKey st.tool_schemas h).getD []
  ⟨h, ts, "cached", "Using cached connection with " ++ toString ts.length ++ " tools"⟩

/-- The part of add_server before its first await: hash computation and
the cache check (lines 26 to 38). The truncated sha256 digest of
compute_config_hash is abstracted as the hash function parameter applied
to the canonical serialization. -/
def addServerCachedCheck (hashFn : String → String) (st : ManagerState)
    (cfg : ProviderConfig) : Option AddServerResult :=
  let h := hashFn cfg.serialized
  if (lookupKey st.connections h).isSome then some (cachedResult h st) else none

/-- The part of add_server after connect returns (lines 43 to 96): a
raised exception or a session reporting not connected yields an error
result and stores nothing; success stores the connection, its schemas and
the serialized configuration under the hash. -/
def addServerAfterConnect (hashFn : String → String) (st : ManagerState)
    (cfg : ProviderConfig) (run : ConnectRun) : AddServerResult × ManagerState :=
  let h := hashFn cfg.serialized
  match run.exn with
  | some e => (⟨h, [], "error", "Failed to connect: " ++ e⟩, st)
  | none =>
    if !run.conn.is_connected then
      (⟨h, [], "error", "Connection failed - server not responding"⟩, st)
    else
      (⟨h, run.conn.tools, "success",
          "Connected with " ++ toString run.conn.tools.length ++ " tools"⟩,
        ⟨dictInsert h run.conn st.connections,
         dictInsert h run.conn.tools st.tool_schemas,
         dictInsert h cfg.serialized st.config_hashes⟩)

/-- Result of one add_server call: the returned dict, the manager state
after the call and the number of handshakes performed by the call. -/
structure AddRun where
  result : AddServerResult
  state : ManagerState
  handshakes : Nat
  deriving DecidableEq, Repr

/-- MCPManager.add_server (mcp_manager.py lines 24 to 96). -/
def addServer (hashFn : String → String) (st : ManagerState) (cfg : ProviderConfig)
    (now : Int) : AddRun :=
  match addServerCachedCheck hashFn st cfg with
  | some r => ⟨r, st, 0⟩
  | none =>
    let run := connect (MCPConnection.init now) cfg.env
    let pr := addServerAfterConnect hashFn st cfg run
    ⟨pr.1, pr.2, 1⟩

/-- Interleaving of two concurrent add_server calls for the same
configuration on the single threaded event loop: both calls run their
cache check before either one stores (each suspends inside connect), then
the first call finishes, then the second finishes against the resulting
state. add_server takes no lock and does not re-check the cache after the
await, so the second store overwrites the first. The last component counts
the handshakes performed in total. -/
def addServerRace (hashFn : String → String) (st : ManagerState) (cfg : ProviderConfig)
    (now1 now2 : Int) : AddServerResult × AddServerResult × ManagerState × Nat :=
  match addServerCachedCheck hashFn st cfg with
  | some r => (r, r, st, 0)
  | none =>
    let runA := connect (MCPConnection.init now1) cfg.env
    let prA := addServerAfterConnect hashFn st cfg runA
    let runB := connect (MCPConnection.init now2) cfg.env
    let prB := addServerAfterConnect hashFn prA.2 cfg runB
    (prA.1, prB.1, prB.2, 2)

/-- MCPConnection.is_idle (mcp_client.py lines 464 to 465); the default
threshold of timedelta of 30 minutes is 1800 seconds. -/
def isIdle (c : MCPConnection) (now : Int) (idleTimeout : Int := 1800) : Bool :=
  decide (now - c.last_access > idleTimeout)

/-- A raised fastapi HTTPException, reduced to status code and detail. -/
structure HTTPError where
  status_code : Nat
  detail : String
  deriving DecidableEq, Repr

/-- The dict returned by MCPManager.health_check; members absent from a
given branch of the source are none. -/
structure HealthResult where
  config_hash : String
  healthy : Bool
  status : String
  message : Option String
  tools_count : Option Nat
  last_access : Option Int
  connection_type : Option String
  deriving DecidableEq, Repr

/-- MCPManager.health_check (mcp_manager.py lines 98 to 135): an empty
hash raises HTTP 400; an unknown hash returns a not_found result; for a
stored connection, healthy means connected and not idle, and the transport
kind is derived from the session handle. -/
def healthCheck (st : ManagerState) (h : String) (now : Int) :
    Except HTTPError HealthResult :=
  if h = "" then .error ⟨400, "config_hash is required"⟩
  else
    match lookupKey st.connections h with
    | none => .ok ⟨h, false, "not_found", some "MCP connection not found", none, none, none⟩
    | some c =>
      let healthy := c.is_connected && !(isIdle c now)
      let ctype :=
        if c.session = some SessionHandle.httpClient then "http"
        else if c.stdio_process then "stdio"
        else "unknown"
      .ok ⟨h, healthy, if healthy then "active" else "idle", none,
        some c.tools.length, some c.last_access, some ctype⟩

/-- An exception escaping call_tool: either a fastapi HTTPException or a
plain exception (a connect failure propagates unwrapped, since the
reconnect happens before the try block of call_tool). -/
inductive PyError where
  | httpExc (e : HTTPError)
  | exc (msg : String)
  deriving DecidableEq, Repr

/-- Transport behaviour for one call_tool invocation: the HTTP outcome
used when the session is an httpx client, the stdio read otherwise. -/
structure CallOracle where
  httpO : HttpOutcome
  stdioR : StdioRead
  deriving DecidableEq, Repr

instance instDecEqExcept {ε α : Type} [DecidableEq ε] [DecidableEq α] :
    DecidableEq (Except ε α) := fun x y =>
  match x, y with
  | .ok a, .ok b =>
    if h : a = b then isTrue (by rw [h])
    else isFalse (by intro hc; cases hc; exact h rfl)
  | .error a, .error b =>
    if h : a = b then isTrue (by rw [h])
    else isFalse (by intro hc; cases hc; exact h rfl)
  | .ok _, .error _ => isFalse (by intro hc; cases hc)
  | .error _, .ok _ => isFalse (by intro hc; cases hc)

/-- Result of one call_tool invocation: the returned payload or raised
error, and the connection object afterwards. -/
structure CallRun where
  result : Except PyError String
  conn : MCPConnection
  deriving DecidableEq, Repr

/-- The transport dispatch inside the try block of MCPConnection.call_tool
(mcp_client.py lines 404 to 452): on the HTTP path a falsy response raises
the generic no response error, an error member raises the tool error, and
otherwise the result member is returned; on the stdio path an exception
from the exchange is re-raised as a tool execution failure. -/
def callToolDispatch (c : MCPConnection) (o : CallOracle) : Except PyError String :=
  match c.session with
  | some SessionHandle.httpClient =>
    match sendJsonrpcRequest o.httpO with
    | none => .error (.httpExc ⟨500, "No response from MCP server"⟩)
    | some r =>
      if r.isEmptyObj then .error (.httpExc ⟨500, "No response from MCP server"⟩)
      else
        match r.error with
        | some m => .error (.httpExc ⟨500, "MCP tool error: " ++ m⟩)
        | none => .ok r.resultPayload
  | _ =>
    if !c.stdio_process then
      .error (.httpExc ⟨500, "Tool execution failed: No stdio process available"⟩)
    else
      match sendStdioMessage "tools/call" o.stdioR with
      | .error m => .error (.httpExc ⟨500, "Tool execution failed: " ++ m⟩)
      | .ok r =>
        match r.error with
        | some m => .error (.httpExc ⟨500, "MCP tool error: " ++ m⟩)
        | none => .ok r.resultPayload

/-- MCPConnection.call_tool (mcp_client.py lines 398 to 452): reconnect
when not connected (outside the try block, so a connect exception
propagates unwrapped), refresh last_access unconditionally, then run the
transport specific call. The connection fields other than last_access are
not mutated by the call itself. -/
def callTool (c0 : MCPConnection) (cenv : ConnectEnv) (o : CallOracle) (now : Int) :
    CallRun :=
  let pre := if !c0.is_connected then connect c0 cenv else ⟨c0, none, []⟩
  match pre.exn with
  | some e => ⟨.error (.exc e), pre.conn⟩
  | none =>
    let c := { pre.conn with last_access := now }
    ⟨callToolDispatch c o, c⟩

/-- How the child process behaves during teardown: already exited before
cleanup, exits within the first wait after stdin is closed, exits within
the wait after terminate, or only dies when killed. -/
inductive ProcBehavior where
  | alreadyExited
  | exitsOnStdinClose
  | exitsOnTerminate
  | needsKill
  deriving DecidableEq, Repr

/-- One step of the teardown sequence: closing stdin, waiting with an
optional bound in seconds (none meaning unbounded), terminate or kill. -/
inductive ShutdownAction where
  | closeStdin
  | wait (timeoutSecs : Option Int)
  | terminate
  | kill
  deriving DecidableEq, Repr

/-- The first wait bound of _cleanup_stdio_process (3.0 seconds). -/
def gracefulWaitSecs : Int := 3

/-- The wait bound after terminate in _cleanup_stdio_process (2.0 s). -/
def terminateWaitSecs : Int := 2

/-- MCPConnection._cleanup_stdio_process (mcp_client.py lines 179 to 205):
for a still running child, close stdin, wait up to 3 seconds, then send
terminate and wait up to 2 seconds, then kill and wait without a bound. -/
def cleanupSequence : ProcBehavior → List ShutdownAction
  | .alreadyExited => []
  | .exitsOnStdinClose => [.closeStdin, .wait (some gracefulWaitSecs)]
  | .exitsOnTerminate =>
    [.closeStdin, .wait (some gracefulWaitSecs), .terminate, .wait (some terminateWaitSecs)]
  | .needsKill =>
    [.closeStdin, .wait (some gracefulWaitSecs), .terminate, .wait (some terminateWaitSecs),
     .kill, .wait none]

/-- The timeout passed to the httpx.AsyncClient constructor
(mcp_client.py line 43). -/
def httpClientDefaultTimeoutSecs : Int := 10

/-- The envelope of one posted JSON-RPC request: the method, the explicit
per request timeout and whether the session id header is attached. -/
structure PostedRequest where
  method : String
  timeoutSecs : Int
  hasSessionHeader : Bool
  deriving DecidableEq, Repr

/-- The request _send_jsonrpc_request posts (mcp_client.py lines 252 to
277): every method, initialize included, is posted with an explicit 30
second timeout; the session id header is attached to non initialize
requests when a session id is known. -/
def buildJsonrpcPost (method : String) (sessionId : Option String) : PostedRequest :=
  ⟨method, 30, (method != "initialize") && sessionId.isSome⟩

/-- The failure modes of one HTTP JSON-RPC request: a raised exception
(I/O failure or timeout), a non 200 status, or an unparsable body. -/
def httpRequestFailed : HttpOutcome → Prop
  | .exn => True
  | .response s b => s ≠ 200 ∨ b = none

/-! Concrete sample values used in witnesses and counterexamples. -/

def sampleTool : MCPTool := ⟨"search", "Search the web"⟩

def okResp : JsonRpcResp := ⟨false, none, [sampleTool], "ok"⟩

def goodHttpEnv : ConnectEnv :=
  ConnectEnv.http (HttpOutcome.response 200 (some okResp))
    (HttpOutcome.response 200 (some okResp)) (HttpOutcome.response 200 (some okResp))

def cfgGood : ProviderConfig := ⟨"cfgGood", goodHttpEnv⟩

def cfgBad : ProviderConfig := ⟨"cfgBad", ConnectEnv.raisesEarly "boom"⟩

def cfgSample : ProviderConfig := ⟨"cfgA", ConnectEnv.otherType⟩

def idHash : String → String := fun s => s

def constHash : String → String := fun _ => "h1"

def idleConnZero : MCPConnection :=
  ⟨[("search", sampleTool)], some SessionHandle.httpClient, false, none, 0, true⟩

def readyStdioConn : MCPConnection :=
  ⟨[("search", sampleTool)], some SessionHandle.stdioProcess, true, none, 0, true⟩

def readyHttpConn : MCPConnection :=
  ⟨[("search", sampleTool)], some SessionHandle.httpClient, false, some "sid", 0, true⟩

def stWithConn : ManagerState :=
  ⟨[("h1", idleConnZero)], [("h1", [("search", sampleTool)])], [("h1", "cfgA")]⟩

/-! Helper lemmas shared by the claim theorems. -/

/-- add_server on a cache miss runs one handshake and finishes with
addServerAfterConnect. -/
theorem addServer_of_notCached (hashFn : String → String) (st : ManagerState)
    (cfg : ProviderConfig) (now : Int)
    (hnew : (lookupKey st.connections (hashFn cfg.serialized)).isSome = false) :
    addServer hashFn st cfg now =
      ⟨(addServerAfterConnect hashFn st cfg (connect (MCPConnection.init now) cfg.env)).1,
       (addServerAfterConnect hashFn st cfg (connect (MCPConnection.init now) cfg.env)).2,
       1⟩ := by
  unfold addServer addServerCachedCheck
  simp [hnew]

/-- add_server on a cache hit returns the cached result unchanged. -/
theorem addServer_of_cached (hashFn : String → String) (st : ManagerState)
    (cfg : ProviderConfig) (now : Int)
    (hc : (lookupKey st.connections (hashFn cfg.serialized)).isSome = true) :
    addServer hashFn st cfg now = ⟨cachedResult (hashFn cfg.serialized) st, st, 0⟩ := by
  unfold addServer addServerCachedCheck
  simp [hc]

/-- The result of addServerAfterConnect always carries the computed hash. -/
theorem addServerAfterConnect_hash (hashFn : String → String) (st : ManagerState)
    (cfg : ProviderConfig) (run : ConnectRun) :
    (addServerAfterConnect hashFn st cfg run).1.config_hash = hashFn cfg.serialized := by
  unfold addServerAfterConnect
  rcases hexn : run.exn with _ | e
  · simp only [hexn]
    split <;> rfl
  · simp only [hexn]

/-- Looking up the key just inserted by dictInsert yields its value. -/
theorem lookupKey_dictInsert {α : Type} (k : String) (v : α) (d : List (String × α)) :
    lookupKey (dictInsert k v d) k = some v := by
  induction d with
  | nil => simp [dictInsert, lookupKey]
  | cons p rest ih =>
    by_cases hp : p.1 = k
    · simp [dictInsert, lookupKey, hp]
    · simp only [dictInsert, hp, if_false]
      simpa [lookupKey, hp] using ih

/-- When the connect run of add_server succeeds, the connections map
afterwards is the old map with the new session stored under the hash. -/
theorem addServerAfterConnect_success_connections (hashFn : String → String)
    (st : ManagerState) (cfg : ProviderConfig) (run : ConnectRun)
    (hexn : run.exn = none) (hconn : run.conn.is_connected = true) :
    (addServerAfterConnect hashFn st cfg run).2.connections =
      dictInsert (hashFn cfg.serialized) run.conn st.connections := by
  unfold addServerAfterConnect
  simp [hexn, hconn]

/-- Every failed HTTP request makes _send_jsonrpc_request return None. -/
theorem sendJsonrpcRequest_failed_eq_none (o : HttpOutcome) (h : httpRequestFailed o) :
    sendJsonrpcRequest o = none := by
  cases o with
  | exn => rfl
  | response s b =>
    unfold httpRequestFailed at h
    unfold sendJsonrpcRequest
    rcases h with hs | hb
    · simp [hs]
    · subst hb
      by_cases h2 : s = 200 <;> simp [h2]

/-! Claim theorems. -/

/-- C1: for every provider configuration, a fresh session becomes
connected if and only if the whole handshake succeeds (the initialize
exchange and the tools list exchange are both performed and accepted), and
on any handshake failure the capability cache is left empty and the
session is not marked connected: a handshake never partially populates the
capability cache. -/
theorem handshake_atomicity (env : ConnectEnv) (now : Int) :
    ((connect (MCPConnection.init now) env).conn.is_connected = true ↔
      handshakeSucceeded (connect (MCPConnection.init now) env).trace) ∧
    ((connect (MCPConnection.init now) env).conn.is_connected = false →
      (connect (MCPConnection.init now) env).conn.tools = []) := by
  cases env with
  | raisesEarly msg =>
    simp [connect, MCPConnection.init, handshakeSucceeded]
  | otherType =>
    simp [connect, MCPConnection.init, handshakeSucceeded]
  | http i n t =>
    rcases hi : sendJsonrpcRequest i with _ | ir
    · simp [connect, MCPConnection.init, fetchToolsHttp, hi, handshakeSucceeded]
    · by_cases he : (ir.isEmptyObj || ir.error.isSome) = true
      · simp [connect, MCPConnection.init, fetchToolsHttp, hi, he, handshakeSucceeded]
      · rcases ht : sendJsonrpcRequest t with _ | tr
        · simp [connect, MCPConnection.init, fetchToolsHttp, hi, he, ht, handshakeSucceeded]
        · by_cases he2 : (tr.isEmptyObj || tr.error.isSome) = true
          · simp [connect, MCPConnection.init, fetchToolsHttp, hi, he, ht, he2,
              handshakeSucceeded]
          · simp [connect, MCPConnection.init, fetchToolsHttp, hi, he, ht, he2,
              handshakeSucceeded]
  | stdio sp ir nr tlr =>
    cases sp with
    | false => simp [connect, MCPConnection.init, handshakeSucceeded]
    | true =>
      cases hir : stdioInitResult ir with
      | error e =>
        simp [connect, MCPConnection.init, hir, handshakeSucceeded]
      | ok u =>
        cases hn : sendStdioMessage "notifications/initialized" nr with
        | error e2 =>
          simp [connect, MCPConnection.init, hir, fetchToolsStdio, hn, handshakeSucceeded]
        | ok r2 =>
          cases hti : sendStdioMessage "tools/list" tlr with
          | error e3 =>
            simp [connect, MCPConnection.init, hir, fetchToolsStdio, hn, hti,
              handshakeSucceeded]
          | ok tr2 =>
            by_cases he3 : tr2.error.isSome = true
            · simp [connect, MCPConnection.init, hir, fetchToolsStdio, hn, hti, he3,
                handshakeSucceeded]
            · simp [connect, MCPConnection.init, hir, fetchToolsStdio, hn, hti, he3,
                handshakeSucceeded]

theorem handshake_atomicity_witness :
    (connect (MCPConnection.init 0)
      (ConnectEnv.http HttpOutcome.exn HttpOutcome.exn HttpOutcome.exn)).conn.tools = [] :=
  (handshake_atomicity (ConnectEnv.http HttpOutcome.exn HttpOutcome.exn HttpOutcome.exn) 0).2
    (by decide)

/-- C2: for every configuration whose addition fails (a connect exception
or a session reporting not connected), add_server returns a structured
result with status error and a message, leaves the registry maps unchanged
(stores no session), and raises no exception past the manager boundary. -/
theorem add_server_failure_not_stored (hashFn : String → String) (st : ManagerState)
    (cfg : ProviderConfig) (now : Int)
    (hnew : (lookupKey st.connections (hashFn cfg.serialized)).isSome = false)
    (hfail : (connect (MCPConnection.init now) cfg.env).exn ≠ none ∨
      (connect (MCPConnection.init now) cfg.env).conn.is_connected = false) :
    (addServer hashFn st cfg now).result.status = "error" ∧
    (addServer hashFn st cfg now).state = st ∧
    ((addServer hashFn st cfg now).result.message =
        "Connection failed - server not responding" ∨
      ∃ e, (addServer hashFn st cfg now).result.message = "Failed to connect: " ++ e) := by
  rw [addServer_of_notCached hashFn st cfg now hnew]
  unfold addServerAfterConnect
  rcases hexn : (connect (MCPConnection.init now) cfg.env).exn with _ | e
  · rcases hfail with h1 | h2
    · exact absurd hexn h1
    · simp [hexn, h2]
  · simp only [hexn]
    exact ⟨trivial, trivial, Or.inr ⟨e, rfl⟩⟩

theorem add_server_failure_not_stored_witness :
    (addServer idHash ManagerState.empty cfgBad 0).result.status = "error" ∧
    (addServer idHash ManagerState.empty cfgBad 0).state = ManagerState.empty :=
  ⟨(add_server_failure_not_stored idHash ManagerState.empty cfgBad 0 (by decide)
      (by decide)).1,
   (add_server_failure_not_stored idHash ManagerState.empty cfgBad 0 (by decide)
      (by decide)).2.1⟩

/-- C3: for every registry state and configuration whose derived
identifier is already a key of the connections map, add_server returns
status cached with the previously stored schemas and the same identifier,
performs no handshake, and leaves the state unchanged. -/
theorem add_server_cached_idempotent (hashFn : String → String) (st : ManagerState)
    (cfg : ProviderConfig) (now : Int)
    (hc : (lookupKey st.connections (hashFn cfg.serialized)).isSome = true) :
    (addServer hashFn st cfg now).result.status = "cached" ∧
    (addServer hashFn st cfg now).result.config_hash = hashFn cfg.serialized ∧
    (addServer hashFn st cfg now).result.tools =
      (lookupKey st.tool_schemas (hashFn cfg.serialized)).getD [] ∧
    (addServer hashFn st cfg now).handshakes = 0 ∧
    (addServer hashFn st cfg now).state = st := by
  rw [addServer_of_cached hashFn st cfg now hc]
  exact ⟨rfl, rfl, rfl, rfl, rfl⟩

theorem add_server_cached_idempotent_witness :
    (addServer constHash stWithConn cfgSample 50).result.status = "cached" ∧
    (addServer constHash stWithConn cfgSample 50).state = stWithConn :=
  ⟨(add_server_cached_idempotent constHash stWithConn cfgSample 50 (by decide)).1,
   (add_server_cached_idempotent constHash stWithConn cfgSample 50 (by decide)).2.2.2.2⟩

/-- C4 counterexample: an invoke on a Ready stdio session that times out
raises a generic HTTP 500 error, and afterwards the session is still
marked connected: the state does not become Failed, so the next invoke
proceeds on the same session without any reconnection, contrary to the
claim. -/
theorem invoke_timeout_leaves_connected :
    (callTool readyStdioConn ConnectEnv.otherType
        ⟨HttpOutcome.exn, StdioRead.timeout⟩ 5).conn.is_connected = true ∧
    (callTool readyStdioConn ConnectEnv.otherType
        ⟨HttpOutcome.exn, StdioRead.timeout⟩ 5).result =
      .error (PyError.httpExc
        ⟨500, "Tool execution failed: Timeout waiting for tools/call response"⟩) := by
  decide

/-- C4 amended: an invoke on a connected stdio session whose read times
out raises an HTTP 500 error wrapping the timeout message (no dedicated
timeout error type exists), the session stays marked connected, and its
last access timestamp is refreshed to the call time. -/
theorem invoke_timeout_behavior (c : MCPConnection) (cenv : ConnectEnv) (o : CallOracle)
    (now : Int) (hc : c.is_connected = true)
    (hs : c.session = some SessionHandle.stdioProcess) (hp : c.stdio_process = true)
    (ht : o.stdioR = StdioRead.timeout) :
    (callTool c cenv o now).result =
      .error (PyError.httpExc
        ⟨500, "Tool execution failed: Timeout waiting for tools/call response"⟩) ∧
    (callTool c cenv o now).conn.is_connected = true ∧
    (callTool c cenv o now).conn.last_access = now := by
  unfold callTool callToolDispatch
  simp [hc, hs, hp, ht, sendStdioMessage]

theorem invoke_timeout_behavior_witness :
    (callTool readyStdioConn ConnectEnv.otherType
        ⟨HttpOutcome.exn, StdioRead.timeout⟩ 7).conn.last_access = 7 :=
  (invoke_timeout_behavior readyStdioConn ConnectEnv.otherType
    ⟨HttpOutcome.exn, StdioRead.timeout⟩ 7 rfl rfl rfl rfl).2.2

/-- C5 counterexample: health_check on the empty identifier raises an
HTTP 400 exception instead of returning a status result, contrary to the
claim that it never raises for any identifier string. -/
theorem health_check_empty_hash_raises :
    healthCheck ManagerState.empty "" 0 = .error ⟨400, "config_hash is required"⟩ := rfl

/-- C5 amended: for every nonempty identifier, health_check returns a
status result and never raises, with status not_found when the identifier
is unknown; the empty identifier instead raises an HTTP 400 exception. -/
theorem health_check_nonempty_total (st : ManagerState) (h : String) (now : Int)
    (hne : h ≠ "") :
    (∃ r, healthCheck st h now = .ok r) ∧
    ((lookupKey st.connections h).isSome = false →
      healthCheck st h now =
        .ok ⟨h, false, "not_found", some "MCP connection not found", none, none, none⟩) := by
  unfold healthCheck
  rcases hl : lookupKey st.connections h with _ | c
  · simp [hne, hl]
  · simp [hne, hl]

theorem health_check_nonempty_total_witness :
    healthCheck ManagerState.empty "zz" 0 =
      .ok ⟨"zz", false, "not_found", some "MCP connection not found", none, none, none⟩ :=
  (health_check_nonempty_total ManagerState.empty "zz" 0 (by decide)).2 (by decide)

/-- C6 counterexample: an add_server call that reuses the cached session
at time 100 leaves the stored last access timestamp at 0: cached reuse
does not refresh the last access timestamp, contrary to the claim. -/
theorem cached_add_does_not_refresh_access :
    (lookupKey (addServer constHash stWithConn cfgSample 100).state.connections "h1").map
      MCPConnection.last_access = some 0 ∧ (0 : Int) ≠ 100 := by
  decide

/-- C6 amended: idleness is strictly more than the threshold (default
1800 seconds, 30 minutes) elapsed since last access; every invoke
refreshes the last access timestamp to the call time, but an add_server
call that reuses the cached session leaves the stored state, and hence the
timestamp, unchanged. -/
theorem idleness_and_access_refresh :
    (∀ (c : MCPConnection) (now : Int), isIdle c now = true ↔ now - c.last_access > 1800) ∧
    (∀ (c : MCPConnection) (cenv : ConnectEnv) (o : CallOracle) (now : Int),
      c.is_connected = true → (callTool c cenv o now).conn.last_access = now) ∧
    (∀ (hashFn : String → String) (st : ManagerState) (cfg : ProviderConfig) (now : Int),
      (lookupKey st.connections (hashFn cfg.serialized)).isSome = true →
      (addServer hashFn st cfg now).state = st) := by
  refine ⟨fun c now => ?_, fun c cenv o now hc => ?_, fun hashFn st cfg now hca => ?_⟩
  · simp [isIdle]
  · unfold callTool
    simp [hc]
  · rw [addServer_of_cached hashFn st cfg now hca]

theorem idleness_and_access_refresh_witness :
    isIdle idleConnZero 2000 = true ∧
    (callTool readyStdioConn ConnectEnv.otherType
        ⟨HttpOutcome.exn, StdioRead.timeout⟩ 9).conn.last_access = 9 ∧
    (addServer constHash stWithConn cfgSample 100).state = stWithConn :=
  ⟨(idleness_and_access_refresh.1 idleConnZero 2000).mpr (by decide),
   idleness_and_access_refresh.2.1 readyStdioConn ConnectEnv.otherType
     ⟨HttpOutcome.exn, StdioRead.timeout⟩ 9 rfl,
   idleness_and_access_refresh.2.2 constHash stWithConn cfgSample 100 (by decide)⟩

/-- C7 counterexample: the first wait bound of the teardown (3 seconds)
is not smaller than the second (2 seconds), so the per tier wait timeouts
are not strictly increasing, contrary to the claim. -/
theorem shutdown_timeouts_not_increasing :
    ¬ (gracefulWaitSecs < terminateWaitSecs) := by decide

/-- C7 amended: teardown of a still running child proceeds in order:
close stdin, wait up to 3 seconds for voluntary exit, then terminate and
wait up to 2 seconds, then kill followed by an unbounded wait; the two
bounded wait timeouts are 3 then 2 seconds, strictly decreasing, and the
final wait is unbounded. -/
theorem shutdown_escalation_order (b : ProcBehavior) (hb : b ≠ ProcBehavior.alreadyExited) :
    (cleanupSequence b).take 2 =
      [ShutdownAction.closeStdin, ShutdownAction.wait (some gracefulWaitSecs)] ∧
    cleanupSequence ProcBehavior.needsKill =
      [ShutdownAction.closeStdin, ShutdownAction.wait (some gracefulWaitSecs),
       ShutdownAction.terminate, ShutdownAction.wait (some terminateWaitSecs),
       ShutdownAction.kill, ShutdownAction.wait none] ∧
    gracefulWaitSecs = 3 ∧ terminateWaitSecs = 2 ∧ terminateWaitSecs < gracefulWaitSecs := by
  cases b with
  | alreadyExited => exact absurd rfl hb
  | exitsOnStdinClose => decide
  | exitsOnTerminate => decide
  | needsKill => decide

theorem shutdown_escalation_order_witness :
    (cleanupSequence ProcBehavior.needsKill).take 2 =
      [ShutdownAction.closeStdin, ShutdownAction.wait (some gracefulWaitSecs)] :=
  (shutdown_escalation_order ProcBehavior.needsKill (by decide)).1

/-- C8 counterexample: the initialize request on the network transport is
posted with an explicit 30 second timeout, not the 10 second bound the
claim states (10 seconds is only the client constructor default, which
every post overrides). -/
theorem initialize_request_timeout_is_30 :
    (buildJsonrpcPost "initialize" none).timeoutSecs = 30 ∧
    (buildJsonrpcPost "initialize" none).timeoutSecs ≠ httpClientDefaultTimeoutSecs := by
  decide

/-- C8 amended: on the network transport every request, the initialize
request included, carries an explicit 30 second timeout; the client is
constructed with a 10 second default timeout that the per request value
overrides. -/
theorem network_request_timeouts (method : String) (sid : Option String) :
    (buildJsonrpcPost method sid).timeoutSecs = 30 ∧ httpClientDefaultTimeoutSecs = 10 :=
  ⟨rfl, rfl⟩

/-- C9 counterexample: two concurrent add_server calls for the same not
yet known identifier, both passing the cache check before either stores,
perform two handshakes, not exactly one as the claim states. -/
theorem add_server_race_two_handshakes :
    (addServerRace idHash ManagerState.empty cfgGood 0 1).2.2.2 = 2 ∧
    ¬ (addServerRace idHash ManagerState.empty cfgGood 0 1).2.2.2 = 1 := by
  decide

/-- C9 amended: when two concurrent add_server calls for the same not yet
known identifier both pass the cache check before either stores (the code
takes no lock and does not re-check after its await), two handshakes are
performed and both calls return the same identifier; if the second call's
handshake succeeds, its session overwrites whatever the first stored: the
registry afterwards maps the identifier to the second call's session. -/
theorem add_server_race_behavior (hashFn : String → String) (st : ManagerState)
    (cfg : ProviderConfig) (now1 now2 : Int)
    (hnew : (lookupKey st.connections (hashFn cfg.serialized)).isSome = false) :
    (addServerRace hashFn st cfg now1 now2).2.2.2 = 2 ∧
    (addServerRace hashFn st cfg now1 now2).1.config_hash =
      (addServerRace hashFn st cfg now1 now2).2.1.config_hash ∧
    ((connect (MCPConnection.init now2) cfg.env).exn = none →
      (connect (MCPConnection.init now2) cfg.env).conn.is_connected = true →
      lookupKey (addServerRace hashFn st cfg now1 now2).2.2.1.connections
          (hashFn cfg.serialized) =
        some (connect (MCPConnection.init now2) cfg.env).conn) := by
  have hrw : addServerCachedCheck hashFn st cfg = none := by
    unfold addServerCachedCheck
    simp [hnew]
  unfold addServerRace
  rw [hrw]
  refine ⟨rfl, by rw [addServerAfterConnect_hash, addServerAfterConnect_hash], ?_⟩
  intro hexn hconn
  rw [addServerAfterConnect_success_connections hashFn _ cfg _ hexn hconn,
    lookupKey_dictInsert]

theorem add_server_race_behavior_witness :
    (addServerRace idHash ManagerState.empty cfgGood 3 4).2.2.2 = 2 ∧
    lookupKey (addServerRace idHash ManagerState.empty cfgGood 3 4).2.2.1.connections
        (idHash cfgGood.serialized) =
      some (connect (MCPConnection.init 4) cfgGood.env).conn :=
  ⟨(add_server_race_behavior idHash ManagerState.empty cfgGood 3 4 (by decide)).1,
   (add_server_race_behavior idHash ManagerState.empty cfgGood 3 4 (by decide)).2.2
     (by decide) (by decide)⟩

/-- C10: every failure of one network JSON-RPC request (raised exception,
that is an I/O failure or timeout, a non 200 status, or an unparsable
body) makes the send primitive return None, and an invoke on a connected
HTTP session surfaces every such failure as the same generic HTTP 500
error reading No response from MCP server: the distinct failure kinds are
collapsed into one outcome. -/
theorem http_failures_collapse :
    (∀ o : HttpOutcome, httpRequestFailed o → sendJsonrpcRequest o = none) ∧
    (∀ (c : MCPConnection) (cenv : ConnectEnv) (o : CallOracle) (now : Int),
      c.is_connected = true → c.session = some SessionHandle.httpClient →
      httpRequestFailed o.httpO →
      (callTool c cenv o now).result =
        .error (PyError.httpExc ⟨500, "No response from MCP server"⟩)) := by
  refine ⟨fun o h => sendJsonrpcRequest_failed_eq_none o h, ?_⟩
  intro c cenv o now hc hs ho
  have hn := sendJsonrpcRequest_failed_eq_none o.httpO ho
  unfold callTool callToolDispatch
  simp [hc, hs, hn]

theorem http_failures_collapse_witness :
    (callTool readyHttpConn ConnectEnv.otherType
        ⟨HttpOutcome.exn, StdioRead.timeout⟩ 3).result =
      .error (PyError.httpExc ⟨500, "No response from MCP server"⟩) :=
  http_failures_collapse.2 readyHttpConn ConnectEnv.otherType
    ⟨HttpOutcome.exn, StdioRead.timeout⟩ 3 rfl rfl trivial

end Simpletooling
